import Mathlib

/-
Verification of the BacaDrive Google Drive reader (src/gdriveread.py).

The Python program is shallowly embedded: byte payloads are lists of
naturals (one per byte), the remote Drive service is an explicit
environment of retrieval and parsing capabilities, Python exceptions are
an explicit Except layer, and the Streamlit session is explicit state
passed in and out of each operation.
-/

set_option autoImplicit false

/-- A byte payload, one natural number (0..255) per byte. -/
abbrev Bytes := List Nat

/-- UTF-8 decoding of a byte list, per the standard rules a strict Python
bytes.decode uses: rejects stray continuation bytes, overlong forms,
surrogate code points and code points above 0x10FFFF. Returns none where
Python raises UnicodeDecodeError. -/
def utf8DecodeList : List Nat → Option (List Char)
  | [] => some []
  | b :: rest =>
    if b ≤ 0x7F then
      (utf8DecodeList rest).map (fun cs => Char.ofNat b :: cs)
    else if 0xC2 ≤ b && b ≤ 0xDF then
      match rest with
      | b1 :: r =>
        if 0x80 ≤ b1 && b1 ≤ 0xBF then
          (utf8DecodeList r).map (fun cs =>
            Char.ofNat ((b - 0xC0) * 0x40 + (b1 - 0x80)) :: cs)
        else none
      | [] => none
    else if 0xE0 ≤ b && b ≤ 0xEF then
      match rest with
      | b1 :: b2 :: r =>
        if (if b = 0xE0 then 0xA0 ≤ b1 && b1 ≤ 0xBF
            else if b = 0xED then 0x80 ≤ b1 && b1 ≤ 0x9F
            else 0x80 ≤ b1 && b1 ≤ 0xBF) && (0x80 ≤ b2 && b2 ≤ 0xBF) then
          (utf8DecodeList r).map (fun cs =>
            Char.ofNat ((b - 0xE0) * 0x1000 + (b1 - 0x80) * 0x40 + (b2 - 0x80)) :: cs)
        else none
      | _ => none
    else if 0xF0 ≤ b && b ≤ 0xF4 then
      match rest with
      | b1 :: b2 :: b3 :: r =>
        if (if b = 0xF0 then 0x90 ≤ b1 && b1 ≤ 0xBF
            else if b = 0xF4 then 0x80 ≤ b1 && b1 ≤ 0x8F
            else 0x80 ≤ b1 && b1 ≤ 0xBF) && (0x80 ≤ b2 && b2 ≤ 0xBF)
            && (0x80 ≤ b3 && b3 ≤ 0xBF) then
          (utf8DecodeList r).map (fun cs =>
            Char.ofNat ((b - 0xF0) * 0x40000 + (b1 - 0x80) * 0x1000
              + (b2 - 0x80) * 0x40 + (b3 - 0x80)) :: cs)
        else none
      | _ => none
    else none

/-- Decode a byte payload to a string; none models UnicodeDecodeError. -/
def utf8Decode (bs : Bytes) : Option String :=
  (utf8DecodeList bs).map String.mk

/-- Split a character list at every occurrence of the character c,
as Python str.split(c) does: n separators produce n+1 (possibly empty)
chunks. -/
def splitOnChar (c : Char) : List Char → List (List Char)
  | [] => [[]]
  | x :: rest =>
    if x = c then [] :: splitOnChar c rest
    else
      match splitOnChar c rest with
      | [] => [[x]]
      | r :: rs => (x :: r) :: rs

/-- Models csv.reader over io.StringIO(s) for payloads without quote or
carriage-return characters, the shape the program feeds it: iterating the
buffer yields the newline-separated lines (a trailing newline produces no
extra line), and each line splits at commas into fields; a blank line
yields an empty row. -/
def csvParse (s : String) : List (List String) :=
  let parts := (splitOnChar '\n' s.data).map String.mk
  let lines := if parts.getLast? = some "" then parts.dropLast else parts
  lines.map (fun line => if line = "" then [] else (splitOnChar ',' line.data).map String.mk)

/-- A Python value produced by json.loads (numbers collapsed to integers;
the program never inspects them). -/
inductive PyVal where
  | jnull
  | jbool (b : Bool)
  | jnum (n : Int)
  | jstr (s : String)
  | jarr (elems : List PyVal)
  | jobj (fields : List (String × PyVal))

/-- Python truthiness of a json.loads value. -/
def pyTruthyVal : PyVal → Bool
  | .jnull => false
  | .jbool b => b
  | .jnum n => n != 0
  | .jstr s => s != ""
  | .jarr xs => !xs.isEmpty
  | .jobj fs => !fs.isEmpty

/-- Python str.startswith on string values, computed on character data. -/
def strStartsWith (p s : String) : Bool := p.data.isPrefixOf s.data

/-- The normalized content a file read can produce: a text string, a list
of csv rows, a pandas DataFrame (kept as its cell grid), or a json value. -/
inductive Content where
  | text (s : String)
  | table (rows : List (List String))
  | frame (rows : List (List String))
  | structured (v : PyVal)

/-- A file descriptor as returned by the Drive listing: the dict keys
id, name, mimeType and the optional webViewLink the program reads. -/
structure FileInfo where
  id : String
  name : String
  mimeType : String
  webViewLink : Option String
deriving DecidableEq

/-- The per-file result dict built by read_file_content. -/
structure ContentResult where
  name : String
  id : String
  mime_type : String
  content : Option Content
  error : Option String
  web_link : String

/-- The remote Drive service and the file-format libraries, as an
environment of capabilities. fetchBytes models files().get_media plus the
chunked download loop of download_file: none is an HttpError (caught there
and turned into None). exportRaw models files().export_media the same way.
pdfParse models PyPDF2.PdfReader plus per-page extract_text (a page with
no text layer contributes an empty string); docxParse models Document plus
its paragraph texts; excelParse models pd.read_excel returning the cell
grid; jsonParse models json.loads. An error value models the exception
those library calls raise on malformed input. -/
structure Env where
  fetchBytes : String → Option Bytes
  exportRaw : String → String → Option Bytes
  pdfParse : Bytes → Except String (List String)
  docxParse : Bytes → Except String (List String)
  excelParse : Bytes → Except String (List (List String))
  jsonParse : String → Except String PyVal

/-- export_google_doc: export the file and decode the bytes as UTF-8.
An HttpError is caught inside and becomes None; a decode failure is an
exception that propagates to the caller. -/
def export_google_doc (env : Env) (fileId exportType : String) : Except String (Option String) :=
  match env.exportRaw fileId exportType with
  | none => .ok none
  | some bs =>
    match utf8Decode bs with
    | none => .error "UnicodeDecodeError"
    | some s => .ok (some s)

/-- The download-then-guard shape shared by the byte-based branches of
read_file_content: file_content = download_file(id); if file_content: k.
A failed download (None) or an empty payload skips the processing step. -/
def viaFetch (env : Env) (fileId : String) (k : Bytes → Except String (Option Content)) :
    Except String (Option Content) :=
  match env.fetchBytes fileId with
  | none => .ok none
  | some bs => if bs.isEmpty then .ok none else k bs

/-- The PDF branch body: build a PdfReader and concatenate every page
text followed by a newline. -/
def pdfCont (env : Env) (bs : Bytes) : Except String (Option Content) :=
  match env.pdfParse bs with
  | .error e => .error e
  | .ok pages => .ok (some (.text (pages.foldl (fun acc p => acc ++ p ++ "\n") "")))

/-- The Word (.docx) branch body: paragraph texts joined with newlines. -/
def docxCont (env : Env) (bs : Bytes) : Except String (Option Content) :=
  match env.docxParse bs with
  | .error e => .error e
  | .ok paras => .ok (some (.text (String.intercalate "\n" paras)))

/-- The Excel branch body: pd.read_excel into a DataFrame. -/
def excelCont (env : Env) (bs : Bytes) : Except String (Option Content) :=
  match env.excelParse bs with
  | .error e => .error e
  | .ok rows => .ok (some (.frame rows))

/-- The text/* branch body: decode the bytes as UTF-8 text. -/
def textCont (bs : Bytes) : Except String (Option Content) :=
  match utf8Decode bs with
  | none => .error "UnicodeDecodeError"
  | some s => .ok (some (.text s))

/-- The text/csv branch body: decode, then parse csv rows. -/
def csvCont (bs : Bytes) : Except String (Option Content) :=
  match utf8Decode bs with
  | none => .error "UnicodeDecodeError"
  | some s => .ok (some (.table (csvParse s)))

/-- The application/json branch body: decode, then json.loads. -/
def jsonCont (env : Env) (bs : Bytes) : Except String (Option Content) :=
  match utf8Decode bs with
  | none => .error "UnicodeDecodeError"
  | some s =>
    match env.jsonParse s with
    | .error e => .error e
    | .ok v => .ok (some (.structured v))

/-- The Google Docs branch: export as text/plain and store the result,
None included, without a truthiness guard. -/
def docBranch (env : Env) (fileId : String) : Except String (Option Content) :=
  match export_google_doc env fileId "text/plain" with
  | .error e => .error e
  | .ok c => .ok (c.map Content.text)

/-- The Google Sheets branch: export as text/csv; only a truthy (nonempty)
export is parsed into rows. -/
def sheetBranch (env : Env) (fileId : String) : Except String (Option Content) :=
  match export_google_doc env fileId "text/csv" with
  | .error e => .error e
  | .ok none => .ok none
  | .ok (some c) => if c != "" then .ok (some (.table (csvParse c))) else .ok none

/-- The mime-type dispatch chain inside the try block of
read_file_content, in source order (note the text/* test precedes the
text/csv test, exactly as in the elif chain). none is the final else arm,
an unsupported mime type. -/
def dispatchContent (env : Env) (f : FileInfo) : Option (Except String (Option Content)) :=
  if f.mimeType = "application/vnd.google-apps.document" then
    some (docBranch env f.id)
  else if f.mimeType = "application/vnd.google-apps.spreadsheet" then
    some (sheetBranch env f.id)
  else if f.mimeType = "application/pdf" then
    some (viaFetch env f.id (pdfCont env))
  else if f.mimeType = "application/vnd.openxmlformats-officedocument.wordprocessingml.document" then
    some (viaFetch env f.id (docxCont env))
  else if f.mimeType = "application/vnd.openxmlformats-officedocument.spreadsheetml.sheet"
      ∨ f.mimeType = "application/vnd.ms-excel" then
    some (viaFetch env f.id (excelCont env))
  else if strStartsWith "text/" f.mimeType then
    some (viaFetch env f.id textCont)
  else if f.mimeType = "text/csv" then
    some (viaFetch env f.id csvCont)
  else if f.mimeType = "application/json" then
    some (viaFetch env f.id (jsonCont env))
  else none

/-- read_file_content: build the result dict, run the dispatch inside a
try that catches every exception into the error field; the unsupported
arm writes its message into error directly. -/
def read_file_content (env : Env) (f : FileInfo) : ContentResult :=
  match dispatchContent env f with
  | none =>
    ⟨f.name, f.id, f.mimeType, none,
      some ("Tipe file " ++ f.mimeType ++ " belum didukung"), f.webViewLink.getD ""⟩
  | some (.error e) => ⟨f.name, f.id, f.mimeType, none, some e, f.webViewLink.getD ""⟩
  | some (.ok c) => ⟨f.name, f.id, f.mimeType, c, none, f.webViewLink.getD ""⟩

/-- Python truthiness of a result content value; a pandas DataFrame has
no truth value and raises ValueError. -/
def contentTruthy : Content → Except String Bool
  | .text s => .ok (s != "")
  | .table rows => .ok (rows != ([] : List (List String)))
  | .frame _ =>
      .error "ValueError: The truth value of a DataFrame is ambiguous. Use a.empty, a.bool(), a.item(), a.any() or a.all()."
  | .structured v => .ok (pyTruthyVal v)

/-- Truthiness of the error field (None or a string). -/
def errTruthy : Option String → Bool
  | none => false
  | some s => s != ""

/-- The per-result success test of the summary: r content and not r error.
The conjunction short-circuits, so a None content never evaluates the
error; a DataFrame content raises. -/
def resultSuccess (r : ContentResult) : Except String Bool :=
  match r.content with
  | none => .ok false
  | some c => (contentTruthy c).map (fun b => b && !errTruthy r.error)

/-- The success test as a plain boolean, false where it would raise. -/
def goodB (r : ContentResult) : Bool :=
  match resultSuccess r with
  | .ok b => b
  | .error _ => false

/-- successful = len([r for r in results if r content and not r error]),
evaluated left to right, propagating the first raised exception. -/
def successfulCount : List ContentResult → Except String Nat
  | [] => .ok 0
  | r :: rs =>
    match resultSuccess r with
    | .error e => .error e
    | .ok b => (successfulCount rs).map (fun n => if b then n + 1 else n)

/-- The summary metrics of the folder mode: (successful, failed, total)
with failed = len(results) - successful and total = len(results). -/
def batchSummary (rs : List ContentResult) : Except String (Nat × Nat × Nat) :=
  match successfulCount rs with
  | .error e => .error e
  | .ok s => .ok (s, rs.length - s, rs.length)

/-- The folder-mode batch loop: keep the files whose mimeType is among
the selected types, then read every one that is not a folder entry,
appending results in input order. -/
def runBatch (env : Env) (files : List FileInfo) (selected : List String) : List ContentResult :=
  (files.filter (fun f => selected.contains f.mimeType)).foldl
    (fun acc f =>
      if f.mimeType != "application/vnd.google-apps.folder" then acc ++ [read_file_content env f]
      else acc)
    []

/-- The token dict kept in st.session_state.auth_token. -/
structure TokenData where
  access_token : String
  refresh_token : Option String
  expires_in : Nat
deriving DecidableEq

/-- The user profile kept in st.session_state.user_info. -/
structure UserInfo where
  name : String
  email : String
deriving DecidableEq

/-- The Streamlit session keys the authentication code touches. -/
structure Session where
  oauth_state : Option String
  auth_token : Option TokenData
  user_info : Option UserInfo
deriving DecidableEq

/-- The code and state query parameters of the OAuth redirect. -/
structure Query where
  code : Option String
  state : Option String
deriving DecidableEq

/-- The credentials object flow.fetch_token produces. -/
structure Creds where
  token : String
  refresh_token : Option String
deriving DecidableEq

/-- The external OAuth endpoints: fetchToken models the whole try body up
to flow.credentials (an error is any exception raised there); userInfo
models the best-effort profile fetch. -/
structure OAuthEnv where
  fetchToken : String → Except String Creds
  userInfo : Except String UserInfo

/-- What handle_oauth_callback leaves behind: its return value, the
session, the query parameters after the call, and the error banner it
displayed, if any. -/
structure CallbackResult where
  returned : Option TokenData
  session : Session
  query : Query
  shownError : Option String
deriving DecidableEq

/-- handle_oauth_callback: with code and state present, a state value
different from the stored oauth_state nonce shows an error and returns
None; otherwise the code is exchanged inside a try block; on success the
token dict and user info are stored and the query parameters are cleared;
any exception shows an error and returns None, leaving session and query
untouched. -/
def handle_oauth_callback (env : OAuthEnv) (sess : Session) (q : Query) : CallbackResult :=
  match q.code, q.state with
  | some authCode, some returnedState =>
    if sess.oauth_state ≠ some returnedState then
      ⟨none, sess, q, some "Invalid OAuth state parameter"⟩
    else
      match env.fetchToken authCode with
      | .error e => ⟨none, sess, q, some ("OAuth callback error: " ++ e)⟩
      | .ok creds =>
        let td : TokenData := ⟨creds.token, creds.refresh_token, 3600⟩
        let ui : UserInfo :=
          match env.userInfo with
          | .ok u => u
          | .error _ => ⟨"User", "unknown@example.com"⟩
        ⟨some td, { sess with auth_token := some td, user_info := some ui }, ⟨none, none⟩, none⟩
  | _, _ => ⟨none, sess, q, none⟩

/-- The refresh endpoint response: a new access token, and possibly a new
refresh token (providers do not always reissue one). The program only
ever reads the access token. -/
structure RefreshResp where
  access_token : String
  new_refresh_token : Option String
deriving DecidableEq

/-- The environment of build_service: whether the Credentials object
reports itself expired, the outcome of creds.refresh(Request()), and the
outcome of build(drive, v3). -/
structure BuildEnv where
  expired : Bool
  refreshOutcome : Except String RefreshResp
  buildOutcome : Except String Unit

/-- Truthiness of creds.refresh_token: present and nonempty. -/
def hasRefreshToken (t : TokenData) : Bool :=
  match t.refresh_token with
  | some s => s != ""
  | none => false

/-- build_service: inside a try block, refresh the credentials when they
are expired and carry a truthy refresh token, copying only the new access
token into the session token dict; then build the Drive service and
return True. Any exception shows an error, deletes auth_token from the
session, and returns False. An expired credential without a refresh token
is not refreshed and not rejected: the service is built with it as-is. -/
def build_service (env : BuildEnv) (sess : Session) (token : TokenData) : Bool × Session :=
  if env.expired && hasRefreshToken token then
    match env.refreshOutcome with
    | .error _ => (false, { sess with auth_token := none })
    | .ok resp =>
      match env.buildOutcome with
      | .ok _ =>
        (true, { sess with auth_token :=
          sess.auth_token.map (fun t => { t with access_token := resp.access_token }) })
      | .error _ => (false, { sess with auth_token := none })
  else
    match env.buildOutcome with
    | .ok _ => (true, sess)
    | .error _ => (false, { sess with auth_token := none })

/-- Python sub in s for character lists: some position starts an
occurrence of sub. -/
def containsSub (sep : List Char) : List Char → Bool
  | [] => sep.isEmpty
  | c :: rest => sep.isPrefixOf (c :: rest) || containsSub sep rest

/-- The worker of pySplit, with fuel bounding the recursion depth (one
unit per examined position, so the input length is always enough).
Scanning left to right, each occurrence of the separator is consumed
whole and closes the current chunk, as Python str.split does. -/
def pySplitAux (sep : List Char) : Nat → List Char → List (List Char)
  | _, [] => [[]]
  | 0, l => [l]
  | fuel + 1, c :: rest =>
    if sep.isPrefixOf (c :: rest) && !sep.isEmpty then
      [] :: pySplitAux sep fuel ((c :: rest).drop sep.length)
    else
      match pySplitAux sep fuel rest with
      | [] => [[c]]
      | r :: rs => (c :: r) :: rs

/-- Python str.split(sep) for a nonempty separator, on character lists. -/
def pySplit (sep l : List Char) : List (List Char) :=
  pySplitAux sep l.length l

/-- The separator /folders/ as characters. -/
def foldersSep : List Char := "/folders/".data

/-- The separator ? as characters. -/
def qmSep : List Char := "?".data

/-- get_folder_id_from_url: when the URL contains /folders/, take the
chunk after the first occurrence (split at every /folders/, element 1)
and cut it at the first question mark; otherwise raise ValueError. -/
def get_folder_id_from_url (folder_url : String) : Except String String :=
  if containsSub foldersSep folder_url.data = true then
    .ok (String.mk ((pySplit qmSep ((pySplit foldersSep folder_url.data).getD 1 [])).headD []))
  else
    .error "URL bukan folder Google Drive yang valid"

/-- The retrieval outcomes that leave a dispatch branch without content
and without error: a failed (HttpError) or empty byte download, a failed
export, or an export of an empty document. -/
def noPayload (env : Env) (f : FileInfo) : Prop :=
  env.fetchBytes f.id = none ∨ env.fetchBytes f.id = some [] ∨
  export_google_doc env f.id "text/plain" = .ok none ∨
  export_google_doc env f.id "text/csv" = .ok none ∨
  export_google_doc env f.id "text/csv" = .ok (some "")

/-- An environment in which every remote retrieval fails with HttpError
and every format library rejects its input. -/
def envNoRemote : Env where
  fetchBytes := fun _ => none
  exportRaw := fun _ _ => none
  pdfParse := fun _ => .error "PdfReadError"
  docxParse := fun _ => .error "BadZipFile"
  excelParse := fun _ => .error "BadZipFile"
  jsonParse := fun _ => .error "JSONDecodeError"

/-- C1 counterexample: a network failure (HttpError, modelled as
fetchBytes returning none) while downloading a PDF is not recorded in the
error field of the result, against the claim that every failure mode is. -/
def c1File : FileInfo := ⟨"id1", "paper.pdf", "application/pdf", none⟩

/-- Environment for the C1 witness: downloads yield a single invalid
UTF-8 byte, so the text branch raises UnicodeDecodeError inside the try. -/
def c1wEnv : Env := { envNoRemote with fetchBytes := fun _ => some [255] }

/-- The file of the C1 witness. -/
def c1wFile : FileInfo := ⟨"idw1", "notes.txt", "text/plain", none⟩

/-- The CSV payload of C2, the bytes of a,b newline 1,2 newline 3,4. -/
def csvBytes : Bytes := [97, 44, 98, 10, 49, 44, 50, 10, 51, 44, 52]

/-- Environment for C2: downloading yields the CSV payload. -/
def c2Env : Env := { envNoRemote with fetchBytes := fun _ => some csvBytes }

/-- The file of C2, a text/csv descriptor. -/
def c2File : FileInfo := ⟨"id-csv", "data.csv", "text/csv", none⟩

/-- The Excel mime type. -/
def xlsxMime : String := "application/vnd.openxmlformats-officedocument.spreadsheetml.sheet"

/-- Environment for the C3 counterexample: an Excel download parses into
a one-cell DataFrame. -/
def c3Env : Env :=
  { envNoRemote with
    fetchBytes := fun _ => some [80, 75]
    excelParse := fun _ => .ok [["1"]] }

/-- The file of the C3 counterexample. -/
def c3File : FileInfo := ⟨"id3", "table.xlsx", xlsxMime, none⟩

/-- Environment for the C3 witness: downloads yield the bytes of hi. -/
def c3wEnv : Env := { envNoRemote with fetchBytes := fun _ => some [104, 105] }

/-- The files of the C3 witness: one readable text file, one unsupported
binary. -/
def c3wFiles : List FileInfo :=
  [⟨"w1", "a.txt", "text/plain", none⟩, ⟨"w2", "b.bin", "application/octet-stream", none⟩]

/-- The type filter of the C3 witness. -/
def c3wSel : List String := ["text/plain", "application/octet-stream"]

/-- C4 counterexample: a text/csv file whose download fails with
HttpError yields a result with both content and error absent, though the
download failure is not the empty-file case the claim reserves for that. -/
def c4File : FileInfo := ⟨"id4", "report.csv", "text/csv", none⟩

/-- The file of the C4 witness. -/
def c4wFile : FileInfo := ⟨"id4w", "x.docx",
  "application/vnd.openxmlformats-officedocument.wordprocessingml.document", none⟩

/-- Environment, session and query of the C5 witness. -/
def c5wEnv : OAuthEnv := ⟨fun _ => .error "unused", .error "unused"⟩

/-- Session of the C5 witness, holding the pending nonce. -/
def c5wSess : Session := ⟨some "good-nonce", none, none⟩

/-- Query of the C5 witness, carrying a forged state. -/
def c5wQuery : Query := ⟨some "authcode", some "evil-nonce"⟩

/-- Environment of the C6 counterexample: the token exchange fails. -/
def c6Env : OAuthEnv := ⟨fun _ => .error "invalid_grant", .error "unused"⟩

/-- Session of the C6 counterexample. -/
def c6Sess : Session := ⟨some "state123", none, none⟩

/-- Query of the C6 counterexample, a matching code/state pair. -/
def c6Query : Query := ⟨some "code123", some "state123"⟩

/-- Environment of the C6 witness: the exchange succeeds. -/
def c6wEnv : OAuthEnv := ⟨fun _ => .ok ⟨"tok1", some "r1"⟩, .ok ⟨"Alice", "alice@example.com"⟩⟩

/-- Session of the C6 witness. -/
def c6wSess : Session := ⟨some "s1", none, none⟩

/-- Query of the C6 witness. -/
def c6wQuery : Query := ⟨some "c1", some "s1"⟩

/-- Environment of the C7 counterexample: expired credential, working
service construction; the refresh endpoint is irrelevant since there is
no refresh token. -/
def c7Env : BuildEnv := ⟨true, .error "unused", .ok ()⟩

/-- Token of the C7 counterexample: expired, no refresh token. -/
def c7Tok : TokenData := ⟨"expired-access", none, 3600⟩

/-- Session of the C7 counterexample. -/
def c7Sess : Session := ⟨none, some c7Tok, none⟩

/-- Environment of the C7 witness: refresh succeeds. -/
def c7wEnv : BuildEnv := ⟨true, .ok ⟨"newAT", none⟩, .ok ()⟩

/-- Token of the C7 witness: expired with a refresh token. -/
def c7wTok : TokenData := ⟨"oldAT", some "RT", 3600⟩

/-- Session of the C7 witness. -/
def c7wSess : Session := ⟨none, some c7wTok, none⟩

/-- Environment of the C8 witness: the provider returns a new access
token and omits the refresh token. -/
def c8wEnv : BuildEnv := ⟨true, .ok ⟨"fresh", none⟩, .ok ()⟩

/-- Token of the C8 witness. -/
def c8wTok : TokenData := ⟨"stale", some "keepme", 3600⟩

/-- Session of the C8 witness. -/
def c8wSess : Session := ⟨some "ns", some c8wTok, some ⟨"U", "u@example.com"⟩⟩

/-- Environment of the C9 counterexample: a one-page PDF with text x. -/
def c9Env : Env :=
  { envNoRemote with
    fetchBytes := fun _ => some [37]
    pdfParse := fun _ => .ok ["x"] }

/-- The file of the C9 counterexample. -/
def c9File : FileInfo := ⟨"id9", "one.pdf", "application/pdf", none⟩

/-- Environment of the C9 witness: a PDF with a text page and a page
with no text layer. -/
def c9wEnv : Env :=
  { envNoRemote with
    fetchBytes := fun _ => some [37]
    pdfParse := fun _ => .ok ["hello", ""] }

/-- The file of the C9 witness. -/
def c9wFile : FileInfo := ⟨"id9w", "two.pdf", "application/pdf", none⟩

/-- A list is a prefix of itself followed by anything. -/
theorem isPrefixOf_append_self (a b : List Char) : a.isPrefixOf (a ++ b) = true := by
  induction a with
  | nil => cases b <;> rfl
  | cons c a ih => simp [List.isPrefixOf, ih]

/-- Dropping the length of the left part of an append leaves the right part. -/
theorem dropLenAppend (a b : List Char) : (a ++ b).drop a.length = b := by
  induction a with
  | nil => rfl
  | cons c a ih => simp [ih]

/-- Appending string values concatenates their character data. -/
theorem strDataAppend (a b : String) : (a ++ b).data = a.data ++ b.data := rfl

/-- A string is its own character data repackaged. -/
theorem strMkData (s : String) : String.mk s.data = s := rfl

/-- A list with the separator spliced into it contains the separator. -/
theorem containsSub_append_sep (sep rest : List Char) (hsep : sep ≠ []) :
    ∀ pre : List Char, containsSub sep (pre ++ (sep ++ rest)) = true := by
  intro pre
  induction pre with
  | nil =>
    obtain ⟨s0, tl, rfl⟩ : ∃ s0 tl, sep = s0 :: tl := by
      cases sep with
      | nil => exact absurd rfl hsep
      | cons s0 tl => exact ⟨s0, tl, rfl⟩
    show containsSub (s0 :: tl) ((s0 :: tl) ++ rest) = true
    rw [List.cons_append, containsSub, ← List.cons_append, isPrefixOf_append_self]
    rfl
  | cons c pre ih =>
    rw [List.cons_append, containsSub, ih, Bool.or_true]

/-- Where the separator never occurs, pySplitAux returns the whole input
as the single chunk (given enough fuel). -/
theorem pySplitAux_no_sep (sep : List Char) :
    ∀ (fuel : Nat) (l : List Char), l.length ≤ fuel → containsSub sep l = false →
      pySplitAux sep fuel l = [l] := by
  intro fuel
  induction fuel with
  | zero =>
    intro l hl _
    cases l with
    | nil => rfl
    | cons c rest => simp at hl
  | succ f ih =>
    intro l hl hno
    cases l with
    | nil => rfl
    | cons c rest =>
      rw [containsSub, Bool.or_eq_false_iff] at hno
      obtain ⟨hno1, hno2⟩ := hno
      rw [pySplitAux, hno1, Bool.false_and, if_neg (by simp),
        ih rest (by simpa using Nat.le_of_succ_le_succ hl) hno2]

/-- With no occurrence of the separator starting inside the prefix part,
pySplitAux closes the prefix as the first chunk at the spliced-in
separator and continues after it. -/
theorem pySplitAux_find_sep (sep rest : List Char) (hsep : sep ≠ []) :
    ∀ (pre : List Char) (fuel : Nat),
      pre.length + sep.length + rest.length ≤ fuel →
      (∀ i, i < pre.length → sep.isPrefixOf ((pre ++ (sep ++ rest)).drop i) = false) →
      pySplitAux sep fuel (pre ++ (sep ++ rest)) =
        pre :: pySplitAux sep (fuel - (pre.length + 1)) rest := by
  intro pre
  induction pre with
  | nil =>
    intro fuel hf _
    obtain ⟨s0, tl, rfl⟩ : ∃ s0 tl, sep = s0 :: tl := by
      cases sep with
      | nil => exact absurd rfl hsep
      | cons s0 tl => exact ⟨s0, tl, rfl⟩
    cases fuel with
    | zero => simp at hf
    | succ f =>
      show pySplitAux (s0 :: tl) (f + 1) ((s0 :: tl) ++ rest) = _
      rw [List.cons_append, pySplitAux, ← List.cons_append, isPrefixOf_append_self]
      rw [dropLenAppend]
      simp
  | cons c pre ih =>
    intro fuel hf h3
    cases fuel with
    | zero => simp at hf
    | succ f =>
      have h0 : sep.isPrefixOf ((c :: pre) ++ (sep ++ rest)) = false := by
        simpa using h3 0 (by simp)
      have h3s : ∀ i, i < pre.length → sep.isPrefixOf ((pre ++ (sep ++ rest)).drop i) = false := by
        intro i hi
        have := h3 (i + 1) (by simpa using Nat.succ_lt_succ hi)
        simpa [List.cons_append] using this
      rw [List.cons_append] at h0
      rw [List.cons_append, pySplitAux, h0, Bool.false_and, if_neg (by simp),
        ih f (by simp at hf ⊢; omega) h3s]
      have harith : f - (pre.length + 1) = f + 1 - ((c :: pre).length + 1) := by
        simp only [List.length_cons]
        omega
      rw [harith]

/-- A fold that conditionally appends one output per element equals the
map over the filtered list, prefixed by the accumulator. -/
theorem foldl_filter_map {α β : Type} (g : α → β) (p : α → Bool) :
    ∀ (l : List α) (acc : List β),
      l.foldl (fun a x => if p x then a ++ [g x] else a) acc = acc ++ (l.filter p).map g := by
  intro l
  induction l with
  | nil => intro acc; simp
  | cons x l ih =>
    intro acc
    by_cases hp : p x
    · rw [List.foldl_cons, if_pos hp, ih, List.filter_cons_of_pos hp]
      simp
    · rw [List.foldl_cons, if_neg hp, ih,
        List.filter_cons_of_neg (by simpa using hp)]

/-- Where no result raises in its truthiness test, the successful count
is the count of results passing the success test. -/
theorem successfulCount_eq_countP :
    ∀ rs : List ContentResult, (∀ r ∈ rs, ∃ b, resultSuccess r = .ok b) →
      successfulCount rs = .ok (rs.countP goodB) := by
  intro rs
  induction rs with
  | nil => intro _; rfl
  | cons r rs ih =>
    intro h
    obtain ⟨b, hb⟩ := h r (List.mem_cons_self r rs)
    have hrest := ih (fun x hx => h x (List.mem_cons_of_mem r hx))
    rw [successfulCount, hb, hrest]
    have hgood : goodB r = b := by rw [goodB, hb]
    rw [List.countP_cons, hgood]
    cases b <;> simp [Except.map]

/-- The page-concatenation fold of the PDF branch is the join of the
pages each followed by a newline. -/
theorem pdfFold_eq_join (pages : List String) :
    pages.foldl (fun acc p => acc ++ p ++ "\n") "" =
      String.join (pages.map (fun p => p ++ "\n")) := by
  rw [String.join, List.foldl_map]
  congr 1
  funext acc p
  rw [String.append_assoc]

/-- A byte-based branch whose body never returns an empty success can
only end with neither content nor error when the download failed or was
empty. -/
theorem viaFetch_ok_none {env : Env} {fileId : String} {k : Bytes → Except String (Option Content)}
    (hk : ∀ bs, k bs ≠ .ok none) (h : viaFetch env fileId k = .ok none) :
    env.fetchBytes fileId = none ∨ env.fetchBytes fileId = some [] := by
  unfold viaFetch at h
  cases hf : env.fetchBytes fileId with
  | none => exact Or.inl rfl
  | some bs =>
    rw [hf] at h
    cases bs with
    | nil => exact Or.inr rfl
    | cons x xs =>
      simp at h
      exact absurd h (hk (x :: xs))

/-- The PDF branch body produces content or an error, never silence. -/
theorem pdfCont_ne_ok_none (env : Env) (bs : Bytes) : pdfCont env bs ≠ .ok none := by
  unfold pdfCont
  cases hp : env.pdfParse bs <;> simp

/-- The Word branch body produces content or an error, never silence. -/
theorem docxCont_ne_ok_none (env : Env) (bs : Bytes) : docxCont env bs ≠ .ok none := by
  unfold docxCont
  cases hp : env.docxParse bs <;> simp

/-- The Excel branch body produces content or an error, never silence. -/
theorem excelCont_ne_ok_none (env : Env) (bs : Bytes) : excelCont env bs ≠ .ok none := by
  unfold excelCont
  cases hp : env.excelParse bs <;> simp

/-- The text branch body produces content or an error, never silence. -/
theorem textCont_ne_ok_none (bs : Bytes) : textCont bs ≠ .ok none := by
  unfold textCont
  cases hd : utf8Decode bs <;> simp

/-- The csv branch body produces content or an error, never silence. -/
theorem csvCont_ne_ok_none (bs : Bytes) : csvCont bs ≠ .ok none := by
  unfold csvCont
  cases hd : utf8Decode bs <;> simp

/-- The json branch body produces content or an error, never silence. -/
theorem jsonCont_ne_ok_none (env : Env) (bs : Bytes) : jsonCont env bs ≠ .ok none := by
  unfold jsonCont
  cases hd : utf8Decode bs with
  | none => simp
  | some s => cases hj : env.jsonParse s <;> simp [hj]

/-- A dispatch that ends with neither content nor error can only come
from a retrieval step that yielded nothing. -/
theorem dispatch_ok_none {env : Env} {f : FileInfo}
    (h : dispatchContent env f = some (.ok none)) : noPayload env f := by
  unfold dispatchContent at h
  by_cases h1 : f.mimeType = "application/vnd.google-apps.document"
  · rw [if_pos h1, Option.some_inj] at h
    unfold docBranch at h
    cases hexp : export_google_doc env f.id "text/plain" with
    | error e => rw [hexp] at h; simp at h
    | ok c =>
      rw [hexp] at h
      cases c with
      | none => exact Or.inr (Or.inr (Or.inl hexp))
      | some s => simp at h
  rw [if_neg h1] at h
  by_cases h2 : f.mimeType = "application/vnd.google-apps.spreadsheet"
  · rw [if_pos h2, Option.some_inj] at h
    unfold sheetBranch at h
    cases hexp : export_google_doc env f.id "text/csv" with
    | error e => rw [hexp] at h; simp at h
    | ok c =>
      rw [hexp] at h
      cases c with
      | none => exact Or.inr (Or.inr (Or.inr (Or.inl hexp)))
      | some s =>
        by_cases hs : (s != "") = true
        · simp [hs] at h
        · have hseq : s = "" := by simpa using hs
          subst hseq
          exact Or.inr (Or.inr (Or.inr (Or.inr hexp)))
  rw [if_neg h2] at h
  by_cases h3 : f.mimeType = "application/pdf"
  · rw [if_pos h3, Option.some_inj] at h
    rcases viaFetch_ok_none (pdfCont_ne_ok_none env) h with hf | hf
    · exact Or.inl hf
    · exact Or.inr (Or.inl hf)
  rw [if_neg h3] at h
  by_cases h4 : f.mimeType = "application/vnd.openxmlformats-officedocument.wordprocessingml.document"
  · rw [if_pos h4, Option.some_inj] at h
    rcases viaFetch_ok_none (docxCont_ne_ok_none env) h with hf | hf
    · exact Or.inl hf
    · exact Or.inr (Or.inl hf)
  rw [if_neg h4] at h
  by_cases h5 : f.mimeType = "application/vnd.openxmlformats-officedocument.spreadsheetml.sheet"
      ∨ f.mimeType = "application/vnd.ms-excel"
  · rw [if_pos h5, Option.some_inj] at h
    rcases viaFetch_ok_none (excelCont_ne_ok_none env) h with hf | hf
    · exact Or.inl hf
    · exact Or.inr (Or.inl hf)
  rw [if_neg h5] at h
  by_cases h6 : strStartsWith "text/" f.mimeType
  · rw [if_pos h6, Option.some_inj] at h
    rcases viaFetch_ok_none textCont_ne_ok_none h with hf | hf
    · exact Or.inl hf
    · exact Or.inr (Or.inl hf)
  rw [if_neg h6] at h
  by_cases h7 : f.mimeType = "text/csv"
  · rw [if_pos h7, Option.some_inj] at h
    rcases viaFetch_ok_none csvCont_ne_ok_none h with hf | hf
    · exact Or.inl hf
    · exact Or.inr (Or.inl hf)
  rw [if_neg h7] at h
  by_cases h8 : f.mimeType = "application/json"
  · rw [if_pos h8, Option.some_inj] at h
    rcases viaFetch_ok_none (jsonCont_ne_ok_none env) h with hf | hf
    · exact Or.inl hf
    · exact Or.inr (Or.inl hf)
  rw [if_neg h8] at h
  simp at h

/-- C1 (amended): read_file_content always returns one ContentResult per
descriptor, so a batch of N files yields N results, and every exception
raised inside the dispatch (decode error, parse error) as well as the
unsupported-type arm is recorded in the error field of that result. Amendment:
a failed byte download or export (HttpError) is only displayed in the UI
and leaves the result with neither content nor error, so not every
failure mode reaches the error field. -/
theorem c1_amended (env : Env) (fs : List FileInfo) :
    ((fs.map (read_file_content env)).length = fs.length) ∧
    ∀ f ∈ fs,
      (∀ e, dispatchContent env f = some (.error e) →
        (read_file_content env f).error = some e ∧ (read_file_content env f).content = none) ∧
      (dispatchContent env f = none →
        (read_file_content env f).error = some ("Tipe file " ++ f.mimeType ++ " belum didukung") ∧
        (read_file_content env f).content = none) := by
  refine ⟨by simp, ?_⟩
  intro f _
  constructor
  · intro e he
    rw [read_file_content, he]
    exact ⟨rfl, rfl⟩
  · intro he
    rw [read_file_content, he]
    exact ⟨rfl, rfl⟩

/-- C1: the failing-download result carries neither error nor content. -/
theorem c1_counterexample :
    envNoRemote.fetchBytes c1File.id = none ∧
    (read_file_content envNoRemote c1File).error = none ∧
    (read_file_content envNoRemote c1File).content = none :=
  ⟨rfl, rfl, rfl⟩

/-- C1 witness: a decode failure is captured into the error field. -/
theorem c1_witness :
    (read_file_content c1wEnv c1wFile).error = some "UnicodeDecodeError" ∧
    (read_file_content c1wEnv c1wFile).content = none :=
  ((c1_amended c1wEnv [c1wFile]).2 c1wFile (List.mem_singleton.mpr rfl)).1
    "UnicodeDecodeError" rfl

/-- C2: the program documents CSV as producing a table, and carries a
dedicated text/csv branch that would, but the startswith(text/) test
earlier in the elif chain matches text/csv first, so the CSV payload
comes back as plain text; the shadowed branch evaluated on the same
bytes yields exactly the claimed table. -/
theorem c2_csv_branch_shadowed :
    (read_file_content c2Env c2File).content = some (.text "a,b\n1,2\n3,4") ∧
    (read_file_content c2Env c2File).error = none ∧
    csvCont csvBytes = .ok (some (.table [["a", "b"], ["1", "2"], ["3", "4"]])) :=
  ⟨rfl, rfl, rfl⟩

/-- C3 (amended): the batch loop reads exactly the descriptors that pass
the type filter and are not folder entries, once each, in input order;
and, provided no result carries a DataFrame content (whose Python truth
test raises ValueError), the summary reports succeeded = number of
results whose content is truthy with no error, failed = total minus
succeeded, and total = number of results. Amendment: a batch containing a
successfully read Excel file makes the summary computation raise instead
of reporting counts. -/
theorem c3_amended (env : Env) (files : List FileInfo) (selected : List String) :
    runBatch env files selected =
      ((files.filter (fun f => selected.contains f.mimeType)).filter
        (fun f => f.mimeType != "application/vnd.google-apps.folder")).map
        (read_file_content env) ∧
    ((∀ r ∈ runBatch env files selected, ∃ b, resultSuccess r = .ok b) →
      batchSummary (runBatch env files selected) =
        .ok ((runBatch env files selected).countP goodB,
          (runBatch env files selected).length - (runBatch env files selected).countP goodB,
          (runBatch env files selected).length)) := by
  constructor
  · rw [runBatch, foldl_filter_map]
    simp
  · intro hok
    rw [batchSummary, successfulCount_eq_countP _ hok]

/-- C3 counterexample: with one successfully read Excel file the summary
computation raises the DataFrame truth-value ValueError instead of
reporting the claimed counts. -/
theorem c3_counterexample :
    batchSummary (runBatch c3Env [c3File] [xlsxMime]) =
      .error "ValueError: The truth value of a DataFrame is ambiguous. Use a.empty, a.bool(), a.item(), a.any() or a.all()." :=
  rfl

/-- C3 witness: on a concrete DataFrame-free batch the summary reports
the counts, here one success out of two results. -/
theorem c3_witness :
    batchSummary (runBatch c3wEnv c3wFiles c3wSel) =
      .ok ((runBatch c3wEnv c3wFiles c3wSel).countP goodB,
        (runBatch c3wEnv c3wFiles c3wSel).length - (runBatch c3wEnv c3wFiles c3wSel).countP goodB,
        (runBatch c3wEnv c3wFiles c3wSel).length) ∧
    (runBatch c3wEnv c3wFiles c3wSel).countP goodB = 1 ∧
    (runBatch c3wEnv c3wFiles c3wSel).length = 2 := by
  refine ⟨(c3_amended c3wEnv c3wFiles c3wSel).2 ?_, rfl, rfl⟩
  intro r hr
  have hr2 : r ∈ [read_file_content c3wEnv ⟨"w1", "a.txt", "text/plain", none⟩,
      read_file_content c3wEnv ⟨"w2", "b.bin", "application/octet-stream", none⟩] := hr
  rcases List.mem_cons.mp hr2 with h | h
  · exact ⟨true, by rw [h]; exact rfl⟩
  · have h2 := List.mem_singleton.mp h
    exact ⟨false, by rw [h2]; exact rfl⟩

/-- C4 (amended): at most one of content and error is ever populated in a
result; both are absent exactly when the dispatch ended with neither,
which happens only when the retrieval step yielded nothing: a failed
(HttpError) or empty byte download, a failed export, or an export of an
empty document. Amendment: both-absent is not limited to empty files; a
failed download or export of a nonempty file also leaves both fields
empty, with the error only shown in the UI. -/
theorem c4_amended (env : Env) (f : FileInfo) :
    ¬((read_file_content env f).content.isSome ∧ (read_file_content env f).error.isSome) ∧
    ((read_file_content env f).content = none ∧ (read_file_content env f).error = none →
      noPayload env f) := by
  cases hd : dispatchContent env f with
  | none =>
    constructor
    · intro hce
      have := hce.1
      simp [read_file_content, hd] at this
    · intro hce
      have := hce.2
      simp [read_file_content, hd] at this
  | some exc =>
    cases exc with
    | error e =>
      constructor
      · intro hce
        have := hce.1
        simp [read_file_content, hd] at this
      · intro hce
        have := hce.2
        simp [read_file_content, hd] at this
    | ok c =>
      constructor
      · intro hce
        have := hce.2
        simp [read_file_content, hd] at this
      · intro hce
        have hc : c = none := by
          have := hce.1
          simpa [read_file_content, hd] using this
        exact dispatch_ok_none (hc ▸ hd)

/-- C4: both fields absent on a failed (not empty) download. -/
theorem c4_counterexample :
    envNoRemote.fetchBytes c4File.id = none ∧
    (read_file_content envNoRemote c4File).content = none ∧
    (read_file_content envNoRemote c4File).error = none :=
  ⟨rfl, rfl, rfl⟩

/-- C4 witness: a concrete both-absent result implies a no-payload
retrieval. -/
theorem c4_witness : noPayload envNoRemote c4wFile :=
  (c4_amended envNoRemote c4wFile).2 ⟨rfl, rfl⟩

/-- C5: a returned state differing from the stored nonce (including a
missing nonce) makes the callback show the state-mismatch error, return
no token, and leave the session, in particular its stored credential,
untouched. -/
theorem c5_state_mismatch (env : OAuthEnv) (sess : Session) (q : Query) (c s : String)
    (hc : q.code = some c) (hs : q.state = some s) (hm : sess.oauth_state ≠ some s) :
    handle_oauth_callback env sess q =
      ⟨none, sess, q, some "Invalid OAuth state parameter"⟩ := by
  have hq : q = ⟨some c, some s⟩ := by
    cases q
    simp_all
  subst hq
  simp only [handle_oauth_callback]
  rw [if_pos hm]

/-- C5 witness: the mismatching callback at concrete values. -/
theorem c5_witness :
    handle_oauth_callback c5wEnv c5wSess c5wQuery =
      ⟨none, c5wSess, c5wQuery, some "Invalid OAuth state parameter"⟩ :=
  c5_state_mismatch c5wEnv c5wSess c5wQuery "authcode" "evil-nonce" rfl rfl (by decide)

/-- C6 (amended): on a successful exchange the callback clears the query
parameters (so a reload cannot replay the exchange) and stores the token;
the stored oauth_state nonce, however, is never deleted. On a failed
exchange neither the query parameters nor the session change at all, so a
page reload re-attempts the same code/state pair. -/
theorem c6_amended (env : OAuthEnv) (sess : Session) (q : Query) (c s : String)
    (hc : q.code = some c) (hs : q.state = some s) (hm : sess.oauth_state = some s) :
    (∀ cr, env.fetchToken c = .ok cr →
      handle_oauth_callback env sess q =
        ⟨some ⟨cr.token, cr.refresh_token, 3600⟩,
         { sess with
            auth_token := some ⟨cr.token, cr.refresh_token, 3600⟩,
            user_info := some (match env.userInfo with
              | .ok u => u
              | .error _ => ⟨"User", "unknown@example.com"⟩) },
         ⟨none, none⟩, none⟩) ∧
    (∀ e, env.fetchToken c = .error e →
      handle_oauth_callback env sess q =
        ⟨none, sess, q, some ("OAuth callback error: " ++ e)⟩) := by
  have hq : q = ⟨some c, some s⟩ := by
    cases q
    simp_all
  subst hq
  have hcond : ¬(sess.oauth_state ≠ some s) := by
    rw [hm]
    simp
  constructor
  · intro cr hcr
    simp only [handle_oauth_callback]
    rw [if_neg hcond, hcr]
  · intro e he
    simp only [handle_oauth_callback]
    rw [if_neg hcond, he]

/-- C6 counterexample: when the exchange fails, the query parameters are
not cleared and the pending nonce is not consumed, against the claim that
both happen whether or not the exchange succeeds. -/
theorem c6_counterexample :
    (handle_oauth_callback c6Env c6Sess c6Query).query = c6Query ∧
    c6Query.code = some "code123" ∧
    (handle_oauth_callback c6Env c6Sess c6Query).session.oauth_state = some "state123" ∧
    (handle_oauth_callback c6Env c6Sess c6Query).returned = none :=
  ⟨rfl, rfl, rfl, rfl⟩

/-- C6 witness: a successful exchange stores the token, clears the query
parameters, and keeps the nonce in the session. -/
theorem c6_witness :
    handle_oauth_callback c6wEnv c6wSess c6wQuery =
      ⟨some ⟨"tok1", some "r1", 3600⟩,
       ⟨some "s1", some ⟨"tok1", some "r1", 3600⟩, some ⟨"Alice", "alice@example.com"⟩⟩,
       ⟨none, none⟩, none⟩ :=
  (c6_amended c6wEnv c6wSess c6wQuery "c1" "s1" rfl rfl rfl).1 ⟨"tok1", some "r1"⟩ rfl

/-- C7 (amended): with an expired credential carrying a truthy refresh
token, build_service refreshes it, stores the new access token and
returns the service; if the refresh endpoint rejects the token, it shows
an error, deletes the session token (forcing reauthentication) and
returns failure. With an expired credential and no refresh token, however,
it does not fail: it proceeds and builds the service with the expired
token, leaving the session untouched. -/
theorem c7_amended (env : BuildEnv) (sess : Session) (token : TokenData) :
    (env.expired = true → hasRefreshToken token = true →
      (∀ resp, env.refreshOutcome = .ok resp → env.buildOutcome = .ok () →
        build_service env sess token =
          (true, { sess with auth_token :=
            sess.auth_token.map (fun t => { t with access_token := resp.access_token }) })) ∧
      (∀ e, env.refreshOutcome = .error e →
        build_service env sess token = (false, { sess with auth_token := none }))) ∧
    (env.expired = true → hasRefreshToken token = false → env.buildOutcome = .ok () →
      build_service env sess token = (true, sess)) := by
  constructor
  · intro hexp href
    have hcond : (env.expired && hasRefreshToken token) = true := by
      rw [hexp, href]
      rfl
    constructor
    · intro resp hresp hbuild
      unfold build_service
      rw [if_pos hcond, hresp, hbuild]
    · intro e he
      unfold build_service
      rw [if_pos hcond, he]
  · intro hexp href hbuild
    have hcond : ¬((env.expired && hasRefreshToken token) = true) := by
      rw [hexp, href]
      simp
    unfold build_service
    rw [if_neg hcond, hbuild]

/-- C7 counterexample: an expired credential without a refresh token is
not rejected; build_service succeeds and keeps the session token, against
the claim that it fails and discards the service. -/
theorem c7_counterexample :
    c7Env.expired = true ∧ hasRefreshToken c7Tok = false ∧
    build_service c7Env c7Sess c7Tok = (true, c7Sess) ∧
    c7Sess.auth_token.isSome = true :=
  ⟨rfl, rfl, rfl, rfl⟩

/-- C7 witness: on concrete inputs, a successful refresh updates the
stored access token, and a rejected refresh deletes the session token and
fails. -/
theorem c7_witness :
    build_service c7wEnv c7wSess c7wTok =
      (true, ⟨none, some ⟨"newAT", some "RT", 3600⟩, none⟩) ∧
    build_service ⟨true, .error "invalid_grant", .ok ()⟩ c7wSess c7wTok =
      (false, ⟨none, none, none⟩) :=
  ⟨((c7_amended c7wEnv c7wSess c7wTok).1 rfl rfl).1 ⟨"newAT", none⟩ rfl rfl,
   ((c7_amended ⟨true, .error "invalid_grant", .ok ()⟩ c7wSess c7wTok).1 rfl rfl).2
     "invalid_grant" rfl⟩

/-- C8: a successful refresh rewrites only the access_token field of the
session token dict; every other session field, and in particular the
refresh_token field, is untouched, whatever refresh token (or none) the
provider returned. -/
theorem c8_refresh_updates_only_access (env : BuildEnv) (sess : Session) (token : TokenData)
    (resp : RefreshResp) (hexp : env.expired = true) (href : hasRefreshToken token = true)
    (hresp : env.refreshOutcome = .ok resp) (hbuild : env.buildOutcome = .ok ()) :
    (build_service env sess token).2 =
      { sess with auth_token :=
        sess.auth_token.map (fun t => { t with access_token := resp.access_token }) } ∧
    (build_service env sess token).2.auth_token.map (fun t => t.refresh_token) =
      sess.auth_token.map (fun t => t.refresh_token) := by
  have hcond : (env.expired && hasRefreshToken token) = true := by
    rw [hexp, href]
    rfl
  have hbs : build_service env sess token =
      (true, { sess with auth_token :=
        sess.auth_token.map (fun t => { t with access_token := resp.access_token }) }) := by
    unfold build_service
    rw [if_pos hcond, hresp, hbuild]
  rw [hbs]
  refine ⟨rfl, ?_⟩
  cases sess.auth_token with
  | none => rfl
  | some t => rfl

/-- C8 witness: the refresh token survives a refresh in which the
provider omitted a new one, and only access_token changed. -/
theorem c8_witness :
    (build_service c8wEnv c8wSess c8wTok).2.auth_token.map (fun t => t.refresh_token) =
      some (some "keepme") ∧
    (build_service c8wEnv c8wSess c8wTok).2 =
      ⟨some "ns", some ⟨"fresh", some "keepme", 3600⟩, some ⟨"U", "u@example.com"⟩⟩ := by
  have h := c8_refresh_updates_only_access c8wEnv c8wSess c8wTok ⟨"fresh", none⟩ rfl rfl rfl rfl
  exact ⟨h.2, h.1⟩

/-- C9 (amended): a PDF whose bytes download successfully and parse into
page texts yields Text equal to the concatenation of each page text
followed by a newline, that is, the pages joined by newlines plus one
trailing newline; a page with no text layer contributes an empty segment
and no error. Amendment: the newline is a terminator after every page,
not a separator between pages. -/
theorem c9_amended (env : Env) (f : FileInfo) (bs : Bytes) (pages : List String)
    (hm : f.mimeType = "application/pdf") (hb : env.fetchBytes f.id = some bs)
    (hne : bs.isEmpty = false) (hp : env.pdfParse bs = .ok pages) :
    (read_file_content env f).content =
      some (.text (String.join (pages.map (fun p => p ++ "\n")))) ∧
    (read_file_content env f).error = none := by
  have hd : dispatchContent env f =
      some (.ok (some (.text (pages.foldl (fun acc p => acc ++ p ++ "\n") "")))) := by
    unfold dispatchContent
    rw [hm, if_neg (by decide), if_neg (by decide), if_pos rfl]
    unfold viaFetch
    rw [hb]
    show some (if bs.isEmpty = true then Except.ok none else pdfCont env bs) = _
    rw [if_neg (by simp [hne])]
    unfold pdfCont
    rw [hp]
  rw [read_file_content, hd]
  exact ⟨congrArg (fun s => some (Content.text s)) (pdfFold_eq_join pages), rfl⟩

/-- C9 counterexample: a single page with text x yields the content x
followed by a newline, while pages joined with a newline separator would
be x alone. -/
theorem c9_counterexample :
    c9Env.pdfParse [37] = .ok ["x"] ∧
    (read_file_content c9Env c9File).content = some (.text "x\n") ∧
    ("x\n" : String) ≠ "x" :=
  ⟨rfl, rfl, by decide⟩

/-- C9 witness: the empty page contributes an empty segment and the read
reports no error. -/
theorem c9_witness :
    (read_file_content c9wEnv c9wFile).content =
      some (.text (String.join (["hello", ""].map (fun p => p ++ "\n")))) ∧
    (read_file_content c9wEnv c9wFile).error = none :=
  c9_amended c9wEnv c9wFile [37] ["hello", ""] rfl rfl rfl rfl

/-- C10 (amended): for an id containing neither a question mark nor
/folders/, appending /folders/ and the id to a prefix and extracting
gives the id back, provided no occurrence of /folders/ starts inside the
prefix part of the URL (the split takes what follows the first
occurrence, so a prefix containing /folders/, or ending in /folders,
breaks the round-trip); and any URL without /folders/ raises ValueError.
Amendment: the round-trip needs the first-occurrence side condition on
the prefix, which the claim quantified over all prefixes. -/
theorem c10_amended :
    (∀ (pre fid : String),
      containsSub foldersSep fid.data = false →
      containsSub qmSep fid.data = false →
      (∀ i, i < pre.data.length →
        foldersSep.isPrefixOf ((pre.data ++ (foldersSep ++ fid.data)).drop i) = false) →
      get_folder_id_from_url (pre ++ "/folders/" ++ fid) = .ok fid) ∧
    (∀ url : String, containsSub foldersSep url.data = false →
      get_folder_id_from_url url = .error "URL bukan folder Google Drive yang valid") := by
  constructor
  · intro pre fid hno hq h3
    have hsep : foldersSep ≠ [] := by decide
    have hdata : (pre ++ "/folders/" ++ fid).data = pre.data ++ (foldersSep ++ fid.data) := by
      rw [strDataAppend, strDataAppend, List.append_assoc]
      rfl
    have h9 : foldersSep.length = 9 := rfl
    have hsplit1 : pySplit foldersSep (pre.data ++ (foldersSep ++ fid.data)) =
        pre.data :: pySplitAux foldersSep
          ((pre.data ++ (foldersSep ++ fid.data)).length - (pre.data.length + 1)) fid.data := by
      unfold pySplit
      exact pySplitAux_find_sep foldersSep fid.data hsep pre.data _
        (by simp only [List.length_append]; omega) h3
    have hsplit2 : pySplitAux foldersSep
        ((pre.data ++ (foldersSep ++ fid.data)).length - (pre.data.length + 1)) fid.data =
        [fid.data] := by
      refine pySplitAux_no_sep foldersSep _ fid.data ?_ hno
      simp only [List.length_append, h9]
      omega
    have hsplit3 : pySplit qmSep fid.data = [fid.data] := by
      unfold pySplit
      exact pySplitAux_no_sep qmSep _ fid.data le_rfl hq
    unfold get_folder_id_from_url
    rw [hdata, if_pos (containsSub_append_sep foldersSep fid.data hsep pre.data),
      hsplit1, hsplit2]
    show Except.ok (String.mk ((pySplit qmSep fid.data).headD [])) = Except.ok fid
    rw [hsplit3]
    show Except.ok (String.mk fid.data) = Except.ok fid
    rw [strMkData]
  · intro url h
    unfold get_folder_id_from_url
    rw [if_neg (by rw [h]; simp)]

/-- C10 counterexample: a prefix that itself contains /folders/ breaks
the round-trip, because the split takes the chunk after the first
occurrence: the extracted id is b, not the appended c. -/
theorem c10_counterexample :
    ("a/folders/b" ++ "/folders/" ++ "c" : String) = "a/folders/b/folders/c" ∧
    containsSub foldersSep ("c" : String).data = false ∧
    containsSub qmSep ("c" : String).data = false ∧
    get_folder_id_from_url "a/folders/b/folders/c" = .ok "b" ∧
    ("b" : String) ≠ "c" :=
  ⟨rfl, rfl, rfl, rfl, by decide⟩

/-- C10 witness: a round-trip through a clean prefix, and a ValueError
on a URL without /folders/. -/
theorem c10_witness :
    get_folder_id_from_url ("https://drive.google.com/drive" ++ "/folders/" ++ "1aBcD") =
      .ok "1aBcD" ∧
    get_folder_id_from_url "https://example.com/file" =
      .error "URL bukan folder Google Drive yang valid" :=
  ⟨c10_amended.1 "https://drive.google.com/drive" "1aBcD" (by decide) (by decide) (by decide),
   c10_amended.2 "https://example.com/file" (by decide)⟩
